import Mathlib

/-!
Verification of the Skill-Forge interactive board logic.

The definitions below are a shallow embedding of the Rubik's Cube state
model, the sudoku input handler, and the statistics sorting found in the
repository (`InteractiveBoard` component and `GameStatistics` page).
Machine numbers are modelled as `Int`/`Nat` (the source only ever holds
small integers, so no overflow is reachable), colours and keys as
`String`, and the stateful React handlers as pure functions from the
previous state to the next.
-/

namespace SkillForge

/-- Face labels of the cube: Up, Down, Front, Back, Left, Right.
The source uses the strings U, D, F, B, L, R both as local face names and
as global face names. -/
inductive Face where
  | U
  | D
  | F
  | B
  | L
  | R
deriving DecidableEq, Repr, Fintype

/-- Integer 3-vector, the `[x, y, z]` position arrays of the source. -/
structure V3 where
  x : Int
  y : Int
  z : Int
deriving DecidableEq, Repr

/-- An orientation record: for each local face label, the global face label
whose sticker is currently shown there (the `orientation` objects of the
source). -/
structure Orientation where
  U : Face
  D : Face
  F : Face
  B : Face
  L : Face
  R : Face
deriving DecidableEq, Repr

/-- A sticker-colour record, one colour string per global face label
(the `stickers` objects of the source). -/
structure Stickers where
  U : String
  D : String
  F : String
  B : String
  L : String
  R : String
deriving DecidableEq, Repr

/-- One cubie record: position, orientation, stickers and key, exactly the
fields pushed by `createSolvedCubeState`. -/
structure Cubie where
  pos : V3
  orientation : Orientation
  stickers : Stickers
  key : String
deriving DecidableEq, Repr

/-- Standard face colours, the `FACE_COLORS` constant of the source. -/
def FACE_COLORS : Face → String
  | .U => "#ffffff"
  | .D => "#ffd600"
  | .F => "#43a047"
  | .B => "#1976d2"
  | .L => "#ff9800"
  | .R => "#e53935"

/-- Initial sticker colours of the cubie at `(x, y, z)` in the solved
state, the source's `getInitialCubieColors`. -/
def getInitialCubieColors (x y z : Int) : Stickers where
  U := if y = 1 then FACE_COLORS .U else "#222"
  D := if y = -1 then FACE_COLORS .D else "#222"
  F := if z = 1 then FACE_COLORS .F else "#222"
  B := if z = -1 then FACE_COLORS .B else "#222"
  L := if x = -1 then FACE_COLORS .L else "#222"
  R := if x = 1 then FACE_COLORS .R else "#222"

/-- Identity orientation, the inline
`{ U: 'U', D: 'D', F: 'F', B: 'B', L: 'L', R: 'R' }` of
`createSolvedCubeState`. -/
def initialOrientation : Orientation :=
  { U := .U, D := .D, F := .F, B := .B, L := .L, R := .R }

/-- Coordinate values visited by the three nested `for` loops. -/
def coordRange : List Int := [-1, 0, 1]

/-- The solved cube state: 27 cubies in loop order (x outermost, then y,
then z), each with identity orientation, solved stickers and a
coordinate key string.  Mirrors `createSolvedCubeState`. -/
def createSolvedCubeState : List Cubie :=
  coordRange.flatMap fun x =>
    coordRange.flatMap fun y =>
      coordRange.map fun z =>
        { pos := ⟨x, y, z⟩
          orientation := initialOrientation
          stickers := getInitialCubieColors x y z
          key := toString x ++ "," ++ toString y ++ "," ++ toString z }

/-- Orientation relabeling for an x-axis layer turn, the source's
`rotateOrientation.x` (comment there: U->B->D->F->U cycle). -/
def rotateOrientationX (ori : Orientation) (cw : Bool) : Orientation where
  U := if cw then ori.B else ori.F
  B := if cw then ori.D else ori.U
  D := if cw then ori.F else ori.B
  F := if cw then ori.U else ori.D
  L := ori.L
  R := ori.R

/-- Orientation relabeling for a y-axis layer turn, the source's
`rotateOrientation.y` (comment there: F->R->B->L->F cycle). -/
def rotateOrientationY (ori : Orientation) (cw : Bool) : Orientation where
  F := if cw then ori.L else ori.R
  R := if cw then ori.B else ori.F
  B := if cw then ori.R else ori.L
  L := if cw then ori.F else ori.B
  U := ori.U
  D := ori.D

/-- Orientation relabeling for a z-axis layer turn, the source's
`rotateOrientation.z` (comment there: U->L->D->R->U cycle). -/
def rotateOrientationZ (ori : Orientation) (cw : Bool) : Orientation where
  U := if cw then ori.L else ori.R
  L := if cw then ori.D else ori.U
  D := if cw then ori.R else ori.L
  R := if cw then ori.U else ori.D
  F := ori.F
  B := ori.B

/-- Dispatch on the numeric axis, the source's
`rotateOrientation[axisName]` with `axisName = ['x','y','z'][axis]`.
Axes other than 0, 1, 2 never reach the orientation update in the source
(the slice test fails first), so the default arm is unreachable there. -/
def rotateOrientationAt (axis : Nat) (ori : Orientation) (cw : Bool) : Orientation :=
  match axis with
  | 0 => rotateOrientationX ori cw
  | 1 => rotateOrientationY ori cw
  | 2 => rotateOrientationZ ori cw
  | _ => ori

/-- Position update of a layer turn: the three `if (axis === n) newPos =`
lines of `rotateLayer`. -/
def rotatePos (axis : Nat) (clockwise : Bool) (p : V3) : V3 :=
  match axis with
  | 0 => ⟨p.x, if clockwise then -p.z else p.z, if clockwise then p.y else -p.y⟩
  | 1 => ⟨if clockwise then p.z else -p.z, p.y, if clockwise then -p.x else p.x⟩
  | 2 => ⟨if clockwise then -p.y else p.y, if clockwise then p.x else -p.x, p.z⟩
  | _ => p

/-- Slice membership test of `rotateLayer`:
`(axis === 0 && x === value) || (axis === 1 && y === value) || (axis === 2 && z === value)`. -/
def inSlice (axis : Nat) (value : Int) (p : V3) : Bool :=
  (axis == 0 && p.x == value) || (axis == 1 && p.y == value) || (axis == 2 && p.z == value)

/-- Per-cubie body of the `cubies.map` in `rotateLayer`: cubies in the
selected slice get a rotated position and orientation, all others are
returned unchanged. -/
def rotateCubie (axis : Nat) (value : Int) (clockwise : Bool) (cubie : Cubie) : Cubie :=
  if inSlice axis value cubie.pos then
    { cubie with
        pos := rotatePos axis clockwise cubie.pos
        orientation := rotateOrientationAt axis cubie.orientation clockwise }
  else
    cubie

/-- Layer rotation, the source's `rotateLayer`: a map of the per-cubie
update over the whole cubie list. -/
def rotateLayer (cubies : List Cubie) (axis : Nat) (value : Int) (clockwise : Bool) : List Cubie :=
  cubies.map (rotateCubie axis value clockwise)

/-- The `rotate` click handler: dispatches a face letter to the
corresponding `rotateLayer` call; unknown letters leave the state
unchanged (no `setCubies` call fires). -/
def rotate (layer : Char) (cubies : List Cubie) (clockwise : Bool) : List Cubie :=
  if layer == 'U' then rotateLayer cubies 1 1 clockwise
  else if layer == 'D' then rotateLayer cubies 1 (-1) clockwise
  else if layer == 'F' then rotateLayer cubies 2 1 clockwise
  else if layer == 'B' then rotateLayer cubies 2 (-1) clockwise
  else if layer == 'L' then rotateLayer cubies 0 (-1) clockwise
  else if layer == 'R' then rotateLayer cubies 0 1 clockwise
  else cubies

/-- Move alphabet of `scramble`, the source's `moves` array (also the
character list of the string UDFBLR indexed there). -/
def scrambleMoves : List Char := ['U', 'D', 'F', 'B', 'L', 'R']

/-- Slice table of `scramble`, the literal `[1, -1, 1, -1, -1, 1]`. -/
def scrambleSlices : List Int := [1, -1, 1, -1, -1, 1]

/-- Axis chosen by `scramble` for a move letter:
`'UDFBLR'.indexOf(move) % 3`.  In the source `move` is always drawn from
the move alphabet, so the index is 0..5. -/
def scrambleAxisOf (move : Char) : Nat :=
  "UDFBLR".toList.indexOf move % 3

/-- Slice chosen by `scramble` for a move letter:
`[1, -1, 1, -1, -1, 1]['UDFBLR'.indexOf(move)]`. -/
def scrambleSliceOf (move : Char) : Int :=
  scrambleSlices.getD ("UDFBLR".toList.indexOf move) 0

/-- One iteration of the scramble loop: the `rotateLayer` call made for a
chosen move letter and direction. -/
def scrambleMove (cubies : List Cubie) (move : Char) (clockwise : Bool) : List Cubie :=
  rotateLayer cubies (scrambleAxisOf move) (scrambleSliceOf move) clockwise

/-- The whole `scramble` handler with its random draws made explicit: the
20 iterations fold `scrambleMove` over the list of drawn
(move, direction) pairs. -/
def scramble (cubies : List Cubie) (choices : List (Char × Bool)) : List Cubie :=
  choices.foldl (fun acc choice => scrambleMove acc choice.1 choice.2) cubies

/-- The `reset` handler: replaces any current state with the solved
state. -/
def reset (_cubies : List Cubie) : List Cubie :=
  createSolvedCubeState

/-- Cube states reachable from the initial `useState(createSolvedCubeState())`
value through the three UI handlers rotate, scramble and reset. -/
inductive Reachable : List Cubie → Prop where
  | solved : Reachable createSolvedCubeState
  | rot (layer : Char) (cw : Bool) {s : List Cubie} :
      Reachable s → Reachable (rotate layer s cw)
  | scr (choices : List (Char × Bool)) {s : List Cubie} :
      Reachable s → Reachable (scramble s choices)
  | res {s : List Cubie} : Reachable s → Reachable (reset s)

/-- The 27 lattice positions in loop order; the positions
`createSolvedCubeState` assigns. -/
def allPositions : List V3 :=
  coordRange.flatMap fun x =>
    coordRange.flatMap fun y =>
      coordRange.map fun z => ⟨x, y, z⟩

/-- Position component of the per-cubie update of `rotateLayer`. -/
def posStep (axis : Nat) (value : Int) (cw : Bool) (p : V3) : V3 :=
  if inSlice axis value p then rotatePos axis cw p else p

/-- A state occupies exactly the 27 lattice positions, each once: its
position list is a permutation of `allPositions`. -/
def validPositions (s : List Cubie) : Prop :=
  (s.map (fun c => c.pos)).Perm allPositions

/-- Orientation record read as a function on face labels, as the `Cubie`
renderer does with `orientation[face]`. -/
def applyOri (o : Orientation) : Face → Face
  | .U => o.U
  | .D => o.D
  | .F => o.F
  | .B => o.B
  | .L => o.L
  | .R => o.R

/-- An orientation is a bijection of the six face labels. -/
def OriBijective (o : Orientation) : Prop :=
  Function.Bijective (applyOri o)

/-- Every cubie of a state carries a bijective orientation. -/
def validOrientations (s : List Cubie) : Prop :=
  ∀ c ∈ s, OriBijective c.orientation

/-- Global direction a face label names, read off `getInitialCubieColors`
(the U sticker sits on cubies with y = 1, D on y = -1, F on z = 1,
B on z = -1, L on x = -1, R on x = 1). -/
def dirOfFace : Face → V3
  | .U => ⟨0, 1, 0⟩
  | .D => ⟨0, -1, 0⟩
  | .F => ⟨0, 0, 1⟩
  | .B => ⟨0, 0, -1⟩
  | .L => ⟨-1, 0, 0⟩
  | .R => ⟨1, 0, 0⟩

/-- Test of the sudoku input regex of `handleSudokuInput`: the pattern
accepts the empty string or one digit character 1..9. -/
def sudokuPattern (value : String) : Bool :=
  match value.toList with
  | [] => true
  | [c] => '1' ≤ c && c ≤ '9'
  | _ => false

/-- The `handleSudokuInput` handler as a pure function: `none` models an
early return with no effect, `some f` models the `setFeedback(f)` call. -/
def handleSudokuInput (isActive : Bool) (row col : Nat) (value : String) : Option String :=
  if !isActive then none
  else if !sudokuPattern value then none
  else some (if value = "" then "Cell cleared"
    else "Placed " ++ value ++ " at row " ++ toString (row + 1) ++
      ", column " ++ toString (col + 1))

/-- Statistics record for one game, fields as used by the statistics
page (the record type itself lives in the data module `gameStats`). -/
structure GameStat where
  id : String
  name : String
  totalTimePlayed : Int
  totalWins : Int
  totalLosses : Int
  sessionDurations : List Int
  accuracy : Int
deriving DecidableEq, Repr

/-- Three-way string comparison standing in for `localeCompare`, using
the standard lexicographic string order: negative, zero or positive as
the first argument sorts before, equal to or after the second. -/
def localeCompare (a b : String) : Int :=
  if a < b then -1 else if b < a then 1 else 0

/-- The comparator passed to `sort` by `sortedStats`, one branch per
sort key; any other key compares everything equal (returns 0). -/
def statCompare (sortBy : String) (a b : GameStat) : Int :=
  if sortBy = "name" then localeCompare a.name b.name
  else if sortBy = "totalTimePlayed" then b.totalTimePlayed - a.totalTimePlayed
  else if sortBy = "accuracy" then b.accuracy - a.accuracy
  else 0

/-- The `sortedStats` value of the statistics page: a stable sort of a
copy of `gameStats` under the selected comparator (JavaScript `sort` is
stable and leaves the original array alone because of the spread copy). -/
def sortedStats (gameStats : List GameStat) (sortBy : String) : List GameStat :=
  gameStats.mergeSort (fun a b => decide (statCompare sortBy a b ≤ 0))

/-- Axes beyond 2 leave positions untouched. -/
theorem rotatePos_high (n : Nat) (cw : Bool) (p : V3) : rotatePos (n + 3) cw p = p := rfl

/-- Axes beyond 2 select no slice. -/
theorem inSlice_high (n : Nat) (v : Int) (p : V3) : inSlice (n + 3) v p = false := rfl

/-- Rotating a position does not move it in or out of the turning slice:
the coordinate along the turning axis is left alone by `rotatePos`. -/
theorem inSlice_rotatePos (axis : Nat) (value : Int) (cw : Bool) (p : V3) :
    inSlice axis value (rotatePos axis cw p) = inSlice axis value p := by
  rcases axis with _ | _ | _ | n
  · simp [inSlice, rotatePos]
  · simp [inSlice, rotatePos]
  · simp [inSlice, rotatePos]
  · rfl

/-- Position field of the per-cubie update. -/
theorem rotateCubie_pos (axis : Nat) (value : Int) (cw : Bool) (c : Cubie) :
    (rotateCubie axis value cw c).pos = posStep axis value cw c.pos := by
  by_cases h : inSlice axis value c.pos <;> simp [rotateCubie, posStep, h]

/-- Four quarter position turns are the identity. -/
theorem rotatePos_four (axis : Nat) (cw : Bool) (p : V3) :
    rotatePos axis cw (rotatePos axis cw (rotatePos axis cw (rotatePos axis cw p))) = p := by
  rcases axis with _ | _ | _ | n <;> cases cw <;> cases p <;> simp [rotatePos]

/-- Four applications of any of the orientation relabelings are the
identity (the x and z maps are 4-cycles, the y map is an involution). -/
theorem rotateOrientationAt_four (axis : Nat) (ori : Orientation) (cw : Bool) :
    rotateOrientationAt axis
      (rotateOrientationAt axis
        (rotateOrientationAt axis (rotateOrientationAt axis ori cw) cw) cw) cw = ori := by
  rcases axis with _ | _ | _ | n <;> cases cw <;> rfl

/-- Four applications of the per-cubie update restore the cubie. -/
theorem rotateCubie_four (axis : Nat) (value : Int) (cw : Bool) (c : Cubie) :
    rotateCubie axis value cw
      (rotateCubie axis value cw
        (rotateCubie axis value cw (rotateCubie axis value cw c))) = c := by
  by_cases h : inSlice axis value c.pos
  · simp [rotateCubie, h, inSlice_rotatePos, rotatePos_four, rotateOrientationAt_four]
  · simp [rotateCubie, h]

/-- C2: for every cube state, every axis, every slice value and either
turn direction, applying `rotateLayer` four times with the same
arguments returns every cubie to its original position and orientation
(indeed the whole state is restored). -/
theorem rotateLayer_four_identity (cubies : List Cubie) (axis : Nat) (value : Int) (cw : Bool) :
    rotateLayer (rotateLayer (rotateLayer (rotateLayer cubies axis value cw)
      axis value cw) axis value cw) axis value cw = cubies := by
  induction cubies with
  | nil => rfl
  | cons c cs ih =>
      simp only [rotateLayer, List.map_cons] at ih ⊢
      simp only [List.cons.injEq]
      exact ⟨rotateCubie_four axis value cw c, ih⟩

/-- C4: a cubie whose coordinate along the chosen axis differs from the
slice value is returned by `rotateLayer` with position, orientation,
stickers and key all unchanged (the whole record is equal). -/
theorem rotateLayer_frame (cubies : List Cubie) (axis : Nat) (value : Int) (cw : Bool)
    (i : Nat) (hi : i < cubies.length) (hj : i < (rotateLayer cubies axis value cw).length)
    (hout : inSlice axis value (cubies.get ⟨i, hi⟩).pos = false) :
    (rotateLayer cubies axis value cw).get ⟨i, hj⟩ = cubies.get ⟨i, hi⟩ := by
  have hout2 : inSlice axis value cubies[i].pos = false := by
    simpa [List.get_eq_getElem] using hout
  simp [rotateLayer, rotateCubie, hout2]

/-- Witness for C4: the centre cubie (index 13, position (0,0,0)) is
untouched by a turn of the x = 1 layer of the solved cube. -/
theorem rotateLayer_frame_witness :
    (rotateLayer createSolvedCubeState 0 1 true).get ⟨13, by decide⟩ =
      createSolvedCubeState.get ⟨13, by decide⟩ :=
  rotateLayer_frame createSolvedCubeState 0 1 true 13 (by decide) (by decide) (by decide)

/-- C5: `reset` discards any prior state and returns the canonical
solved state: 27 cubies, all with the identity orientation. -/
theorem reset_eq_solved (s : List Cubie) :
    reset s = createSolvedCubeState ∧ (reset s).length = 27 ∧
    (reset s).map (fun c => c.orientation) = List.replicate 27 initialOrientation := by
  refine ⟨rfl, ?_, ?_⟩
  · show createSolvedCubeState.length = 27
    decide
  · show createSolvedCubeState.map (fun c => c.orientation) =
      List.replicate 27 initialOrientation
    decide

/-- Sticker field of the per-cubie update is untouched. -/
theorem rotateCubie_stickers (axis : Nat) (value : Int) (cw : Bool) (c : Cubie) :
    (rotateCubie axis value cw c).stickers = c.stickers := by
  by_cases h : inSlice axis value c.pos <;> simp [rotateCubie, h]

/-- Key field of the per-cubie update is untouched. -/
theorem rotateCubie_key (axis : Nat) (value : Int) (cw : Bool) (c : Cubie) :
    (rotateCubie axis value cw c).key = c.key := by
  by_cases h : inSlice axis value c.pos <;> simp [rotateCubie, h]

/-- Sticker lists are preserved by a layer rotation. -/
theorem rotateLayer_stickers (s : List Cubie) (axis : Nat) (value : Int) (cw : Bool) :
    (rotateLayer s axis value cw).map (fun c => c.stickers) = s.map (fun c => c.stickers) := by
  simp only [rotateLayer, List.map_map]
  exact List.map_congr_left fun c _ => rotateCubie_stickers axis value cw c

/-- Sticker lists are preserved by the rotate handler. -/
theorem rotate_stickers (s : List Cubie) (layer : Char) (cw : Bool) :
    (rotate layer s cw).map (fun c => c.stickers) = s.map (fun c => c.stickers) := by
  unfold rotate
  split_ifs <;> first | exact rotateLayer_stickers .. | rfl

/-- Sticker lists are preserved by a whole scramble. -/
theorem scramble_stickers (choices : List (Char × Bool)) (s : List Cubie) :
    (scramble s choices).map (fun c => c.stickers) = s.map (fun c => c.stickers) := by
  induction choices generalizing s with
  | nil => rfl
  | cons ch rest ih =>
      calc (scramble s (ch :: rest)).map (fun c => c.stickers)
          = (scramble (scrambleMove s ch.1 ch.2) rest).map (fun c => c.stickers) := rfl
        _ = (scrambleMove s ch.1 ch.2).map (fun c => c.stickers) := ih _
        _ = s.map (fun c => c.stickers) := rotateLayer_stickers ..

/-- C7: stickers are fixed at creation and never change afterwards: the
per-cubie update keeps stickers (and key) of every cubie, hence every
`rotateLayer`, `rotate` and `scramble` call preserves the sticker list;
at creation the stickers are exactly the solved assignment determined by
the cubie position. -/
theorem stickers_immutable :
    (∀ (axis : Nat) (value : Int) (cw : Bool) (c : Cubie),
        (rotateCubie axis value cw c).stickers = c.stickers ∧
        (rotateCubie axis value cw c).key = c.key) ∧
    (∀ (s : List Cubie) (axis : Nat) (value : Int) (cw : Bool),
        (rotateLayer s axis value cw).map (fun c => c.stickers) =
          s.map (fun c => c.stickers)) ∧
    (∀ (s : List Cubie) (layer : Char) (cw : Bool),
        (rotate layer s cw).map (fun c => c.stickers) = s.map (fun c => c.stickers)) ∧
    (∀ (s : List Cubie) (choices : List (Char × Bool)),
        (scramble s choices).map (fun c => c.stickers) = s.map (fun c => c.stickers)) ∧
    createSolvedCubeState.map (fun c => c.stickers) =
      allPositions.map (fun p => getInitialCubieColors p.x p.y p.z) :=
  ⟨fun axis value cw c => ⟨rotateCubie_stickers axis value cw c, rotateCubie_key axis value cw c⟩,
   rotateLayer_stickers,
   rotate_stickers,
   fun s choices => scramble_stickers choices s,
   by decide⟩

theorem allPositions_coords :
    ∀ p ∈ allPositions,
      (p.x = -1 ∨ p.x = 0 ∨ p.x = 1) ∧ (p.y = -1 ∨ p.y = 0 ∨ p.y = 1) ∧
      (p.z = -1 ∨ p.z = 0 ∨ p.z = 1) := by decide

theorem posStep_high (n : Nat) (value : Int) (cw : Bool) (p : V3) :
    posStep (n + 3) value cw p = p := rfl

theorem posStep_id_of_value_out (axis : Nat) (value : Int) (cw : Bool)
    (h1 : value ≠ -1) (h2 : value ≠ 0) (h3 : value ≠ 1) :
    ∀ p ∈ allPositions, posStep axis value cw p = p := by
  intro p hp
  obtain ⟨hx, hy, hz⟩ := allPositions_coords p hp
  cases hc : inSlice axis value p
  · simp [posStep, hc]
  · exfalso
    simp only [inSlice, Bool.or_eq_true, Bool.and_eq_true, beq_iff_eq] at hc
    rcases hc with ⟨_, h⟩ | ⟨_, h⟩ | ⟨_, h⟩
    · rcases hx with hx | hx | hx <;> simp_all
    · rcases hy with hy | hy | hy <;> simp_all
    · rcases hz with hz | hz | hz <;> simp_all

theorem mapPosStep_perm (axis : Nat) (value : Int) (cw : Bool) :
    (allPositions.map (posStep axis value cw)).Perm allPositions := by
  have outCase : (value ≠ -1) → (value ≠ 0) → (value ≠ 1) →
      (allPositions.map (posStep axis value cw)).Perm allPositions := by
    intro h1 h2 h3
    have hid : allPositions.map (posStep axis value cw) = allPositions.map id :=
      List.map_congr_left fun p hp => posStep_id_of_value_out axis value cw h1 h2 h3 p hp
    rw [hid, List.map_id]
  rcases axis with _ | _ | _ | n
  · by_cases hv1 : value = -1
    · subst hv1; cases cw <;> decide
    · by_cases hv2 : value = 0
      · subst hv2; cases cw <;> decide
      · by_cases hv3 : value = 1
        · subst hv3; cases cw <;> decide
        · exact outCase hv1 hv2 hv3
  · by_cases hv1 : value = -1
    · subst hv1; cases cw <;> decide
    · by_cases hv2 : value = 0
      · subst hv2; cases cw <;> decide
      · by_cases hv3 : value = 1
        · subst hv3; cases cw <;> decide
        · exact outCase hv1 hv2 hv3
  · by_cases hv1 : value = -1
    · subst hv1; cases cw <;> decide
    · by_cases hv2 : value = 0
      · subst hv2; cases cw <;> decide
      · by_cases hv3 : value = 1
        · subst hv3; cases cw <;> decide
        · exact outCase hv1 hv2 hv3
  · have hid : allPositions.map (posStep (n + 3) value cw) = allPositions.map id :=
      List.map_congr_left fun p _ => posStep_high n value cw p
    rw [hid, List.map_id]

/-- Layer rotation preserves occupancy of the 27 positions. -/
theorem validPositions_rotateLayer (s : List Cubie) (axis : Nat) (value : Int) (cw : Bool)
    (h : validPositions s) : validPositions (rotateLayer s axis value cw) := by
  unfold validPositions at h ⊢
  have hmap : (rotateLayer s axis value cw).map (fun c => c.pos) =
      (s.map (fun c => c.pos)).map (posStep axis value cw) := by
    simp only [rotateLayer, List.map_map]
    exact List.map_congr_left fun c _ => rotateCubie_pos axis value cw c
  rw [hmap]
  exact ((h.map (posStep axis value cw)).trans (mapPosStep_perm axis value cw))

/-- The rotate handler preserves occupancy of the 27 positions. -/
theorem validPositions_rotate (layer : Char) (cw : Bool) (s : List Cubie)
    (h : validPositions s) : validPositions (rotate layer s cw) := by
  unfold rotate
  split_ifs <;> first | exact validPositions_rotateLayer _ _ _ _ h | exact h

/-- A scramble preserves occupancy of the 27 positions. -/
theorem validPositions_scramble (choices : List (Char × Bool)) :
    ∀ s : List Cubie, validPositions s → validPositions (scramble s choices) := by
  induction choices with
  | nil => exact fun s h => h
  | cons ch rest ih =>
      exact fun s h => ih (scrambleMove s ch.1 ch.2) (validPositions_rotateLayer _ _ _ _ h)

/-- The solved state occupies the 27 positions. -/
theorem validPositions_solved : validPositions createSolvedCubeState := by
  unfold validPositions; decide

/-- C3: the position update of `rotateLayer` permutes the 27 lattice
positions (never adds, drops or collides cubies), and every state
reachable from the solved state through rotate, scramble and reset
occupies exactly the 27 positions, each exactly once. -/
theorem positions_invariant :
    (∀ (s : List Cubie) (axis : Nat) (value : Int) (cw : Bool),
        validPositions s → validPositions (rotateLayer s axis value cw)) ∧
    (∀ s, Reachable s → validPositions s) := by
  refine ⟨validPositions_rotateLayer, fun s hs => ?_⟩
  induction hs with
  | solved => exact validPositions_solved
  | rot layer cw hr ih => exact validPositions_rotate layer cw _ ih
  | scr choices hr ih => exact validPositions_scramble choices _ ih
  | res hr ih => exact validPositions_solved

theorem positions_invariant_witness :
    validPositions (rotateLayer createSolvedCubeState 1 1 true) ∧
    validPositions createSolvedCubeState :=
  ⟨positions_invariant.1 createSolvedCubeState 1 1 true (by unfold validPositions; decide),
   positions_invariant.2 createSolvedCubeState Reachable.solved⟩

/-- The relabeling of any axis acts by precomposition with the face
permutation it induces on the identity orientation. -/
theorem applyOri_rotateOrientationAt (axis : Nat) (o : Orientation) (cw : Bool) :
    applyOri (rotateOrientationAt axis o cw) =
      applyOri o ∘ applyOri (rotateOrientationAt axis initialOrientation cw) := by
  rcases axis with _ | _ | _ | n <;> cases cw <;> funext f <;> cases f <;> rfl

/-- The face permutation induced by any axis relabeling is bijective. -/
theorem rotateOrientationAt_perm_bijective (axis : Nat) (cw : Bool) :
    Function.Bijective (applyOri (rotateOrientationAt axis initialOrientation cw)) := by
  rcases axis with _ | _ | _ | n
  · cases cw <;> decide
  · cases cw <;> decide
  · cases cw <;> decide
  · show Function.Bijective (applyOri initialOrientation)
    decide

/-- Orientation relabeling preserves bijectivity. -/
theorem OriBijective_rotateOrientationAt (axis : Nat) (o : Orientation) (cw : Bool)
    (h : OriBijective o) : OriBijective (rotateOrientationAt axis o cw) := by
  unfold OriBijective at h ⊢
  rw [applyOri_rotateOrientationAt]
  exact h.comp (rotateOrientationAt_perm_bijective axis cw)

/-- Layer rotation preserves bijectivity of all orientations. -/
theorem validOrientations_rotateLayer (s : List Cubie) (axis : Nat) (value : Int) (cw : Bool)
    (h : validOrientations s) : validOrientations (rotateLayer s axis value cw) := by
  intro c hc
  simp only [rotateLayer, List.mem_map] at hc
  obtain ⟨c0, hc0, rfl⟩ := hc
  by_cases hin : inSlice axis value c0.pos
  · simp only [rotateCubie, hin, if_true]
    exact OriBijective_rotateOrientationAt axis c0.orientation cw (h c0 hc0)
  · simp only [rotateCubie, hin]
    simp only [Bool.false_eq_true, if_false]
    exact h c0 hc0

/-- The rotate handler preserves bijectivity of all orientations. -/
theorem validOrientations_rotate (layer : Char) (cw : Bool) (s : List Cubie)
    (h : validOrientations s) : validOrientations (rotate layer s cw) := by
  unfold rotate
  split_ifs <;> first | exact validOrientations_rotateLayer _ _ _ _ h | exact h

/-- A scramble preserves bijectivity of all orientations. -/
theorem validOrientations_scramble (choices : List (Char × Bool)) :
    ∀ s : List Cubie, validOrientations s → validOrientations (scramble s choices) := by
  induction choices with
  | nil => exact fun s h => h
  | cons ch rest ih =>
      exact fun s h =>
        ih (scrambleMove s ch.1 ch.2) (validOrientations_rotateLayer _ _ _ _ h)

/-- All orientations of the solved state are bijective. -/
theorem validOrientations_solved : validOrientations createSolvedCubeState := by
  intro c hc
  have hmem : c.orientation ∈ createSolvedCubeState.map (fun c => c.orientation) :=
    List.mem_map_of_mem _ hc
  rw [show createSolvedCubeState.map (fun c => c.orientation) =
      List.replicate 27 initialOrientation from by decide] at hmem
  rw [List.eq_of_mem_replicate hmem]
  unfold OriBijective
  decide

/-- C6: the orientation of every cubie in every reachable state is a
bijection of the six face labels, and each of the three orientation
relabelings (either direction) sends bijections to bijections. -/
theorem orientation_bijection_invariant :
    (∀ (o : Orientation) (cw : Bool), OriBijective o →
        OriBijective (rotateOrientationX o cw) ∧ OriBijective (rotateOrientationY o cw) ∧
        OriBijective (rotateOrientationZ o cw)) ∧
    (∀ s, Reachable s → validOrientations s) := by
  constructor
  · intro o cw h
    exact ⟨OriBijective_rotateOrientationAt 0 o cw h,
      OriBijective_rotateOrientationAt 1 o cw h,
      OriBijective_rotateOrientationAt 2 o cw h⟩
  · intro s hs
    induction hs with
    | solved => exact validOrientations_solved
    | rot layer cw hr ih => exact validOrientations_rotate layer cw _ ih
    | scr choices hr ih => exact validOrientations_scramble choices _ ih
    | res hr ih => exact validOrientations_solved

/-- Witness for C6: the identity orientation is bijective and stays so
under the y relabeling; the solved state is reachable. -/
theorem orientation_bijection_invariant_witness :
    OriBijective (rotateOrientationY initialOrientation true) ∧
    validOrientations createSolvedCubeState :=
  ⟨(orientation_bijection_invariant.1 initialOrientation true
      (by unfold OriBijective; decide)).2.1,
   orientation_bijection_invariant.2 createSolvedCubeState Reachable.solved⟩

/-- C1 is refuted by the code.  The position rotations induce a 4-cycle
on the face directions of `getInitialCubieColors`, and the x-axis
relabeling matches it, but the y-axis relabeling is a double
transposition (its own square is the identity, so it is no 4-cycle):
after a clockwise y turn the sticker that faced F should show at R,
yet the code shows at R the sticker that faced B.  The z-axis
relabeling applies the 4-cycle backwards: after a clockwise z turn the
sticker that faced U should show at L, yet the code shows D there.
The last conjunct exhibits the defect on `rotateLayer` itself, at the
corner cubie (1,1,1) of the solved cube. -/
theorem rotateOrientation_y_z_defect :
    (rotatePos 0 true (dirOfFace Face.U) = dirOfFace Face.F ∧
      applyOri (rotateOrientationX initialOrientation true) Face.F = Face.U) ∧
    (rotatePos 1 true (dirOfFace Face.F) = dirOfFace Face.R ∧
      applyOri initialOrientation Face.F = Face.F ∧
      applyOri (rotateOrientationY initialOrientation true) Face.R = Face.B ∧
      Face.B ≠ Face.F) ∧
    (rotateOrientationY (rotateOrientationY initialOrientation true) true =
        initialOrientation ∧
      rotateOrientationY initialOrientation true ≠ initialOrientation) ∧
    (rotatePos 2 true (dirOfFace Face.U) = dirOfFace Face.L ∧
      applyOri (rotateOrientationZ initialOrientation true) Face.L = Face.D ∧
      Face.D ≠ Face.U) ∧
    (∃ c ∈ rotateLayer createSolvedCubeState 1 1 true,
      c.key = "1,1,1" ∧ applyOri c.orientation Face.R = Face.B) := by
  decide

/-- C9: the scramble loop turns, for the letters U, B, L, R, exactly the
layers the rotate handler turns for R, L, D, F, while D and F agree with
their own handler layers; hence every scrambled layer lies in the
four-element set and a scramble never turns the y = 1 (Up) or z = -1
(Back) layer. -/
theorem scramble_layer_mapping (s : List Cubie) (cw : Bool) :
    (scrambleMove s 'U' cw = rotate 'R' s cw ∧
      scrambleMove s 'B' cw = rotate 'L' s cw ∧
      scrambleMove s 'L' cw = rotate 'D' s cw ∧
      scrambleMove s 'R' cw = rotate 'F' s cw ∧
      scrambleMove s 'D' cw = rotate 'D' s cw ∧
      scrambleMove s 'F' cw = rotate 'F' s cw ∧
      scrambleMove s 'U' cw = rotateLayer s 0 1 cw ∧
      scrambleMove s 'B' cw = rotateLayer s 0 (-1) cw ∧
      scrambleMove s 'L' cw = rotateLayer s 1 (-1) cw ∧
      scrambleMove s 'R' cw = rotateLayer s 2 1 cw) ∧
    (∀ m ∈ scrambleMoves,
      (scrambleAxisOf m, scrambleSliceOf m) ∈
        ([(0, 1), (0, -1), (1, -1), (2, 1)] : List (Nat × Int)) ∧
      (scrambleAxisOf m, scrambleSliceOf m) ≠ ((1 : Nat), (1 : Int)) ∧
      (scrambleAxisOf m, scrambleSliceOf m) ≠ ((2 : Nat), (-1 : Int))) :=
  ⟨⟨rfl, rfl, rfl, rfl, rfl, rfl, rfl, rfl, rfl, rfl⟩, by decide⟩

/-- Witness for C9 at the empty state and the letter U. -/
theorem scramble_layer_mapping_witness :
    scrambleMove [] 'U' true = rotate 'R' [] true ∧
    (scrambleAxisOf 'U', scrambleSliceOf 'U') ≠ ((1 : Nat), (1 : Int)) :=
  ⟨(scramble_layer_mapping [] true).1.1,
   ((scramble_layer_mapping [] true).2 'U' (by decide)).2.1⟩

/-- C8 as stated is refuted: the pattern of `handleSudokuInput` also
matches the empty string, which is not a single digit, yet the handler
acts on it (it sets the feedback to Cell cleared). -/
theorem handleSudokuInput_counterexample :
    handleSudokuInput true 0 0 "" = some "Cell cleared" ∧ ("" : String).length ≠ 1 := by
  decide

/-- C8, amended: with a session active the handler acts exactly on the
strings matched by the pattern, which are the empty string and the
single digits 1..9; with no session active it never acts. -/
theorem handleSudokuInput_amended (row col : Nat) (value : String) :
    ((handleSudokuInput true row col value).isSome = sudokuPattern value) ∧
    handleSudokuInput false row col value = none ∧
    sudokuPattern value =
      (value == "" || (value.length == 1 &&
        value.toList.all fun c => '1' ≤ c && c ≤ '9')) := by
  refine ⟨?_, rfl, ?_⟩
  · by_cases h : sudokuPattern value <;> simp [handleSudokuInput, h]
  · obtain ⟨l⟩ := value
    rcases l with _ | ⟨c, _ | ⟨d, rest⟩⟩
    · rfl
    · simp [sudokuPattern]
      intro h
      have h2 : (1 : Nat) = 0 := congrArg (fun s => s.data.length) h
      exact absurd h2 one_ne_zero
    · rfl

/-- The comparator result is nonpositive exactly for the nondecreasing
order on names. -/
theorem localeCompare_nonpos (a b : String) : localeCompare a b ≤ 0 ↔ a ≤ b := by
  unfold localeCompare
  split_ifs with h1 h2
  · simpa using le_of_lt h1
  · simpa using not_le.mpr h2
  · simpa using not_lt.mp h2

/-- Name branch of the comparator. -/
theorem statCompare_le_name (a b : GameStat) :
    statCompare "name" a b ≤ 0 ↔ a.name ≤ b.name := by
  simpa [statCompare] using localeCompare_nonpos a.name b.name

/-- Total-time branch of the comparator (descending). -/
theorem statCompare_le_time (a b : GameStat) :
    statCompare "totalTimePlayed" a b ≤ 0 ↔ b.totalTimePlayed ≤ a.totalTimePlayed := by
  simp [statCompare]

/-- Accuracy branch of the comparator (descending). -/
theorem statCompare_le_accuracy (a b : GameStat) :
    statCompare "accuracy" a b ≤ 0 ↔ b.accuracy ≤ a.accuracy := by
  simp [statCompare]

/-- Any unknown key compares everything equal. -/
theorem statCompare_default (k : String) (hk1 : k ≠ "name")
    (hk2 : k ≠ "totalTimePlayed") (hk3 : k ≠ "accuracy") (a b : GameStat) :
    statCompare k a b = 0 := by
  simp [statCompare, hk1, hk2, hk3]

/-- C10: for every contents of the statistics array and every sort key,
the rendered list is a permutation of the array (which the sort leaves
unchanged, operating on a copy); it is nondecreasing by name under the
name key, nonincreasing by total time under the time key, nonincreasing
by accuracy under the accuracy key, and identical to the original list
for every other key. -/
theorem sortedStats_spec (stats : List GameStat) :
    (∀ key, (sortedStats stats key).Perm stats) ∧
    (sortedStats stats "name").Pairwise
      (fun a b => localeCompare a.name b.name ≤ 0) ∧
    (sortedStats stats "totalTimePlayed").Pairwise
      (fun a b => b.totalTimePlayed ≤ a.totalTimePlayed) ∧
    (sortedStats stats "accuracy").Pairwise (fun a b => b.accuracy ≤ a.accuracy) ∧
    (∀ key, key ≠ "name" → key ≠ "totalTimePlayed" → key ≠ "accuracy" →
        sortedStats stats key = stats) := by
  refine ⟨fun key => List.mergeSort_perm stats _, ?_, ?_, ?_, ?_⟩
  · have h : (sortedStats stats "name").Pairwise
        (fun a b => decide (statCompare "name" a b ≤ 0) = true) := List.sorted_mergeSort
      (fun a b c hab hbc => decide_eq_true ((statCompare_le_name a c).mpr
        (le_trans ((statCompare_le_name a b).mp (of_decide_eq_true hab))
          ((statCompare_le_name b c).mp (of_decide_eq_true hbc)))))
      (fun a b => by
        rcases le_total a.name b.name with h | h
        · simp [decide_eq_true ((statCompare_le_name a b).mpr h)]
        · simp [decide_eq_true ((statCompare_le_name b a).mpr h)])
      stats
    exact h.imp fun hab =>
      (localeCompare_nonpos _ _).mpr ((statCompare_le_name _ _).mp (of_decide_eq_true hab))
  · have h : (sortedStats stats "totalTimePlayed").Pairwise
        (fun a b => decide (statCompare "totalTimePlayed" a b ≤ 0) = true) := List.sorted_mergeSort
      (fun a b c hab hbc => decide_eq_true ((statCompare_le_time a c).mpr
        (le_trans ((statCompare_le_time b c).mp (of_decide_eq_true hbc))
          ((statCompare_le_time a b).mp (of_decide_eq_true hab)))))
      (fun a b => by
        rcases le_total a.totalTimePlayed b.totalTimePlayed with h | h
        · simp [decide_eq_true ((statCompare_le_time b a).mpr h)]
        · simp [decide_eq_true ((statCompare_le_time a b).mpr h)])
      stats
    exact h.imp fun hab => (statCompare_le_time _ _).mp (of_decide_eq_true hab)
  · have h : (sortedStats stats "accuracy").Pairwise
        (fun a b => decide (statCompare "accuracy" a b ≤ 0) = true) := List.sorted_mergeSort
      (fun a b c hab hbc => decide_eq_true ((statCompare_le_accuracy a c).mpr
        (le_trans ((statCompare_le_accuracy b c).mp (of_decide_eq_true hbc))
          ((statCompare_le_accuracy a b).mp (of_decide_eq_true hab)))))
      (fun a b => by
        rcases le_total a.accuracy b.accuracy with h | h
        · simp [decide_eq_true ((statCompare_le_accuracy b a).mpr h)]
        · simp [decide_eq_true ((statCompare_le_accuracy a b).mpr h)])
      stats
    exact h.imp fun hab => (statCompare_le_accuracy _ _).mp (of_decide_eq_true hab)
  · intro key hk1 hk2 hk3
    exact List.mergeSort_of_sorted
      (List.pairwise_of_forall fun a b =>
        decide_eq_true (le_of_eq (statCompare_default key hk1 hk2 hk3 a b)))

/-- Witness for C10 on a concrete two-entry table and the unknown key
wins: the list is returned in its original order, and sorting the same
table by accuracy is a permutation of it. -/
theorem sortedStats_spec_witness :
    sortedStats [⟨"chess", "Chess", 10, 1, 2, [], 50⟩,
        ⟨"sudoku", "Sudoku", 20, 3, 4, [], 80⟩] "wins" =
      [⟨"chess", "Chess", 10, 1, 2, [], 50⟩,
        ⟨"sudoku", "Sudoku", 20, 3, 4, [], 80⟩] ∧
    (sortedStats [⟨"chess", "Chess", 10, 1, 2, [], 50⟩,
        ⟨"sudoku", "Sudoku", 20, 3, 4, [], 80⟩] "accuracy").Perm
      [⟨"chess", "Chess", 10, 1, 2, [], 50⟩,
        ⟨"sudoku", "Sudoku", 20, 3, 4, [], 80⟩] :=
  ⟨(sortedStats_spec _).2.2.2.2 "wins" (by decide) (by decide) (by decide),
   (sortedStats_spec _).1 "accuracy"⟩

end SkillForge



